import Mathlib

/-!
Shallow embedding of the bucky_backup_suite engine pseudo-code
(`doc/PM/framework/Pseudo-Code/engine.py` and `doc/demo.py`) and proofs of
the specified properties of the checkpoint state machine, the task
checkpoint/locking bookkeeping, the chunk pipeline and the demo engine's
task management.
-/

namespace BuckyBackup

/-- Checkpoint status constants `STATUS_*` of engine.py (lines 181-192). -/
inductive Status
  | standby
  | preparing
  | prepareStarted
  | starting
  | sourceStarted
  | start
  | stopping
  | sourceStopped
  | targetStopped
  | stopped
  | success
  | failed
deriving DecidableEq, Repr

/-- Result value of `Checkpoint.transfer`: the three symbolic early returns of
engine.py lines 232-237, and `proceed` for the branches that fall through to
`wait_status` and the target transfer (lines 239-243). -/
inductive TransferResult
  | pending
  | ok
  | invalidStatus
  | proceed
deriving DecidableEq, Repr

/-- `Checkpoint.prepare_source_without_status` (engine.py lines 211-221) as a
function of the current status and of whether `source_locked.prepare()`
succeeded; returns the new status. -/
def prepare_source_without_status (st : Status) (is_success : Bool) : Status :=
  if is_success then
    if st = Status.preparing then Status.prepareStarted
    else if st = Status.starting then Status.sourceStarted
    else st
  else Status.failed

/-- `Checkpoint.prepare_source` (engine.py lines 206-209): only acts when the
status is STANDBY, STOPPED or FAILED; it then sets PREPARING and runs
`prepare_source_without_status`. -/
def prepare_source (st : Status) (is_success : Bool) : Status :=
  if st = Status.standby ∨ st = Status.stopped ∨ st = Status.failed then
    prepare_source_without_status Status.preparing is_success
  else st

/-- The status-dispatch of `Checkpoint.transfer` (engine.py lines 224-237):
returns the status after the dispatch together with the symbolic result
(`proceed` when control falls through to `wait_status`). -/
def transfer (st : Status) (is_success : Bool) : Status × TransferResult :=
  if st = Status.standby ∨ st = Status.stopped ∨ st = Status.failed then
    (prepare_source_without_status Status.starting is_success, TransferResult.proceed)
  else if st = Status.preparing then (Status.starting, TransferResult.proceed)
  else if st = Status.prepareStarted then (Status.sourceStarted, TransferResult.proceed)
  else if st = Status.starting ∨ st = Status.sourceStarted ∨ st = Status.start then
    (st, TransferResult.pending)
  else if st = Status.stopping ∨ st = Status.sourceStopped ∨ st = Status.targetStopped then
    (st, TransferResult.invalidStatus)
  else if st = Status.success then (st, TransferResult.ok)
  else (st, TransferResult.proceed)

/-- The successive values assigned to `self.status` by `Checkpoint.stop`
(engine.py lines 263-269), started from status `st`.  The code assigns the
four constants unconditionally. -/
def stop_trace (st : Status) : List Status :=
  [Status.stopping, Status.sourceStopped, Status.targetStopped, Status.stopped]

/-- The status after `Checkpoint.stop` returns, started from status `st`. -/
def stop (st : Status) : Status := (stop_trace st).getLastD st

/-- Claim C1: `transfer()` returns "pending" when the status is STARTING,
SOURCE_STARTED or START, "ok" when it is SUCCESS, and "invalid-status" when
it is STOPPING, SOURCE_STOPPED or TARGET_STOPPED; in all these cases the
status is not mutated. -/
theorem transfer_symbolic_results (p : Bool) :
    transfer Status.starting p = (Status.starting, TransferResult.pending) ∧
    transfer Status.sourceStarted p = (Status.sourceStarted, TransferResult.pending) ∧
    transfer Status.start p = (Status.start, TransferResult.pending) ∧
    transfer Status.success p = (Status.success, TransferResult.ok) ∧
    transfer Status.stopping p = (Status.stopping, TransferResult.invalidStatus) ∧
    transfer Status.sourceStopped p = (Status.sourceStopped, TransferResult.invalidStatus) ∧
    transfer Status.targetStopped p = (Status.targetStopped, TransferResult.invalidStatus) := by
  cases p <;> decide

/-- Claim C2: from any non-terminal status, `stop()` drives the status
through STOPPING, SOURCE_STOPPED, TARGET_STOPPED and ends in STOPPED. -/
theorem stop_drives_stopping_sequence (st : Status)
    (h1 : st ≠ Status.success) (h2 : st ≠ Status.failed) :
    stop_trace st =
      [Status.stopping, Status.sourceStopped, Status.targetStopped, Status.stopped] ∧
    stop st = Status.stopped := by
  exact ⟨rfl, rfl⟩

/-- Witness for C2 at the concrete non-terminal status START. -/
theorem stop_drives_stopping_sequence_witness :
    stop_trace Status.start =
      [Status.stopping, Status.sourceStopped, Status.targetStopped, Status.stopped] ∧
    stop Status.start = Status.stopped :=
  stop_drives_stopping_sequence Status.start (by decide) (by decide)

/-- Counterexample to claim C3: `stop()` invoked on a SUCCESS checkpoint
does change the status (it ends in STOPPED), so SUCCESS is not terminal
under `stop`. -/
theorem stop_escapes_success :
    stop Status.success = Status.stopped ∧ stop Status.success ≠ Status.success := by
  exact ⟨rfl, by decide⟩

/-- Claim C3 as amended: once a Checkpoint's status is SUCCESS, neither
`prepare_source` nor `transfer` changes it (and `transfer` reports "ok"),
but `stop()` unconditionally rewrites the status and takes even a SUCCESS
checkpoint to STOPPED. -/
theorem success_terminal_except_stop (p : Bool) :
    prepare_source Status.success p = Status.success ∧
    (transfer Status.success p).1 = Status.success ∧
    (transfer Status.success p).2 = TransferResult.ok ∧
    stop Status.success = Status.stopped := by
  cases p <;> decide

/-! Task checkpoint bookkeeping (`Task.create_checkpoint`, engine.py
lines 80-94).  A checkpoint is recorded in `Task.checkpoints` under its
version; versions are assigned from `next_checkpoint_version`. -/

/-- A Checkpoint as recorded in `Task.checkpoints`: its version (the key it
is stored under), its `prev_version` and its status (initially STANDBY,
engine.py line 204). -/
structure CP where
  version : Nat
  prev_version : Option Nat
  status : Status
deriving DecidableEq, Repr

/-- The checkpoint-related fields of a `Task` (engine.py lines 52-53):
the checkpoints in creation order and `next_checkpoint_version`. -/
structure TaskCk where
  checkpoints : List CP
  next_checkpoint_version : Nat
deriving DecidableEq, Repr

/-- Modelled from the spec: `Checkpoint.is_finish` is called at engine.py
line 82 but defined nowhere under src/.  The spec's state taxonomy makes
SUCCESS and FAILED the terminal states ("Terminal: SUCCESS, FAILED") and
has `create_checkpoint` "reject with PriorCheckpointUnfinished if the last
Checkpoint's status is not terminal". -/
def is_finish (st : Status) : Bool :=
  match st with
  | Status.success => true
  | Status.failed => true
  | _ => false

/-- Modelled from the spec: `find_last_checkpoint` is called at engine.py
line 81 but defined nowhere under src/; "the last Checkpoint" is the most
recently created one, i.e. the last entry of the creation-ordered list. -/
def find_last_checkpoint (t : TaskCk) : Option CP :=
  t.checkpoints.getLast?

/-- `Task.create_checkpoint` (engine.py lines 80-94).  Returns the updated
task and the created checkpoint, or `none` (the bare `return` of line 84,
the PriorCheckpointUnfinished rejection) when the last checkpoint is not
finished.  When the task has no checkpoint yet the creation proceeds with
`prev_version = none`. -/
def create_checkpoint (t : TaskCk) (is_delta : Bool) : TaskCk × Option CP :=
  match find_last_checkpoint t with
  | some last =>
    if ¬ is_finish last.status then (t, none)
    else
      let version := t.next_checkpoint_version
      let prev : Option Nat := if is_delta then some last.version else none
      let cp : CP := ⟨version, prev, Status.standby⟩
      (⟨t.checkpoints ++ [cp], version + 1⟩, some cp)
  | none =>
      let version := t.next_checkpoint_version
      let cp : CP := ⟨version, none, Status.standby⟩
      (⟨t.checkpoints ++ [cp], version + 1⟩, some cp)

/-- Counterexample to claim C4: a task whose last checkpoint is FAILED (at
version 1) accepts `create_checkpoint true` and the new checkpoint's
`prev_version` refers to that FAILED — not SUCCESS — checkpoint. -/
theorem create_checkpoint_prev_version_failed_base :
    (create_checkpoint ⟨[⟨1, none, Status.failed⟩], 2⟩ true).2 =
      some ⟨2, some 1, Status.standby⟩ ∧
    ∀ c ∈ (⟨[⟨1, none, Status.failed⟩], 2⟩ : TaskCk).checkpoints,
      c.version = 1 → c.status ≠ Status.success := by
  exact ⟨rfl, by decide⟩

/-- Claim C4 as amended: for every Checkpoint created with
`prev_version = v`, the Checkpoint at version `v` in the same Task exists,
has a strictly smaller version than the new Checkpoint, and is in a
finished state (SUCCESS or FAILED) — not necessarily SUCCESS. -/
theorem create_checkpoint_prev_version_finished
    (t t' : TaskCk) (b : Bool) (cp : CP) (v : Nat)
    (hver : ∀ c ∈ t.checkpoints, c.version < t.next_checkpoint_version)
    (h : create_checkpoint t b = (t', some cp))
    (hp : cp.prev_version = some v) :
    ∃ c ∈ t.checkpoints,
      c.version = v ∧ v < cp.version ∧ is_finish c.status = true := by
  unfold create_checkpoint at h
  cases hlast : find_last_checkpoint t with
  | none =>
      rw [hlast] at h
      simp only [Prod.mk.injEq, Option.some.injEq] at h
      rcases h with ⟨-, hcp⟩
      rw [← hcp] at hp
      simp at hp
  | some last =>
      rw [hlast] at h
      by_cases hfin : is_finish last.status
      · simp only [hfin, not_true_eq_false, if_false, ite_false, Bool.not_true,
          Bool.false_eq_true, if_neg, Prod.mk.injEq, Option.some.injEq] at h
        rcases h with ⟨-, hcp⟩
        have hmem : last ∈ t.checkpoints := by
          have hx : last ∈ t.checkpoints.getLast? := by
            simpa [Option.mem_def] using hlast
          obtain ⟨hne, hlasteq⟩ := List.mem_getLast?_eq_getLast hx
          rw [hlasteq]
          exact List.getLast_mem hne
        refine ⟨last, hmem, ?_, ?_, hfin⟩
        · rw [← hcp] at hp
          cases b with
          | true => simpa using hp
          | false => simp at hp
        · have hlt := hver last hmem
          have hv : v = last.version := by
            rw [← hcp] at hp
            cases b with
            | true => simpa using hp.symm
            | false => simp at hp
          rw [← hcp]
          simpa [hv] using hlt
      · simp only [hfin] at h
        simp at h

/-- Witness for C4's amended theorem: a task whose only checkpoint is a
SUCCESS at version 1 creates a delta checkpoint at version 2 with
`prev_version = 1`, and version 1 is finished. -/
theorem create_checkpoint_prev_version_finished_witness :
    ∃ c ∈ (⟨[⟨1, none, Status.success⟩], 2⟩ : TaskCk).checkpoints,
      c.version = 1 ∧ 1 < (2 : Nat) ∧ is_finish c.status = true :=
  create_checkpoint_prev_version_finished
    ⟨[⟨1, none, Status.success⟩], 2⟩
    ⟨[⟨1, none, Status.success⟩, ⟨2, some 1, Status.standby⟩], 3⟩
    true ⟨2, some 1, Status.standby⟩ 1
    (by decide) (by decide) rfl

/-- Claim C6: when the task's last checkpoint is in a non-terminal status,
`create_checkpoint` rejects (returns no checkpoint) and inserts nothing:
the task is unchanged. -/
theorem create_checkpoint_rejects_unfinished
    (t : TaskCk) (b : Bool) (last : CP)
    (hlast : find_last_checkpoint t = some last)
    (hfin : is_finish last.status = false) :
    create_checkpoint t b = (t, none) := by
  unfold create_checkpoint
  rw [hlast]
  simp [hfin]

/-- Witness for C6 at a concrete task whose last checkpoint is in START. -/
theorem create_checkpoint_rejects_unfinished_witness :
    create_checkpoint ⟨[⟨1, none, Status.start⟩], 2⟩ true =
      (⟨[⟨1, none, Status.start⟩], 2⟩, none) :=
  create_checkpoint_rejects_unfinished
    ⟨[⟨1, none, Status.start⟩], 2⟩ true ⟨1, none, Status.start⟩ rfl rfl

/-! Task-mode negotiation of `BackupEngine.create_backup_task`
(doc/demo.py lines 50-65). -/

/-- The task-mode computation of `create_backup_task` (demo.py lines 56-65):
a pairwise table on the single mode strings reported by `target.get_mode()`
and `source.get_mode()`; any other combination raises "Not supported mode". -/
def create_task_mode (target_mode source_mode : String) : Except String String :=
  if target_mode = "chunklist" ∧ source_mode = "chunklist" then
    Except.ok "chunklist"
  else if target_mode = "folder" ∧ source_mode = "folder" then
    Except.ok "folder"
  else if target_mode = "folder" ∧ source_mode = "chunklist" then
    Except.ok "chunk2folder"
  else if target_mode = "chunklist" ∧ source_mode = "folder" then
    Except.ok "folder2chunk"
  else
    Except.error "Not supported mode"

/-- The task-mode computation as the claim words it (for comparison with
`create_task_mode`): intersect the target's accepted modes with the
source's output modes, fail with IncompatibleModes when the intersection is
empty, and tie-break by the preference order
chunklist > folder2chunk > chunk2folder > folder. -/
def claimed_task_mode (target_modes source_modes : List String) :
    Except String String :=
  let inter := target_modes.filter (fun m => decide (m ∈ source_modes))
  if "chunklist" ∈ inter then Except.ok "chunklist"
  else if "folder2chunk" ∈ inter then Except.ok "folder2chunk"
  else if "chunk2folder" ∈ inter then Except.ok "chunk2folder"
  else if "folder" ∈ inter then Except.ok "folder"
  else Except.error "IncompatibleModes"

/-- Counterexample to claim C5: a folder-only target and a chunklist-only
source have an empty mode intersection, so the claimed computation fails
with IncompatibleModes, yet the code succeeds with mode "chunk2folder"
(demo.py line 61); so the task mode is not the intersection of the two
mode sets. -/
theorem create_task_mode_not_intersection :
    create_task_mode "folder" "chunklist" = Except.ok "chunk2folder" ∧
    claimed_task_mode ["folder"] ["chunklist"] = Except.error "IncompatibleModes" :=
  ⟨rfl, rfl⟩

/-- Claim C5 as amended: `create_backup_task` computes the task mode from
the single mode each endpoint reports, by the pairwise table: equal
chunklist modes give chunklist, equal folder modes give folder, a folder
target with a chunklist source gives chunk2folder, a chunklist target with
a folder source gives folder2chunk, and every other combination fails with
"Not supported mode"; no intersection, IncompatibleModes error or
preference-order tie-break occurs. -/
theorem create_task_mode_table (t s : String) :
    (create_task_mode t s = Except.ok "chunklist" ↔
      t = "chunklist" ∧ s = "chunklist") ∧
    (create_task_mode t s = Except.ok "folder" ↔
      t = "folder" ∧ s = "folder") ∧
    (create_task_mode t s = Except.ok "chunk2folder" ↔
      t = "folder" ∧ s = "chunklist") ∧
    (create_task_mode t s = Except.ok "folder2chunk" ↔
      t = "chunklist" ∧ s = "folder") ∧
    (create_task_mode t s = Except.error "Not supported mode" ↔
      ¬((t = "chunklist" ∨ t = "folder") ∧ (s = "chunklist" ∨ s = "folder"))) := by
  unfold create_task_mode
  by_cases ht1 : t = "chunklist" <;> by_cases ht2 : t = "folder" <;>
    by_cases hs1 : s = "chunklist" <;> by_cases hs2 : s = "folder" <;>
    simp_all

/-! Chunk pipeline: `Checkpoint.next_chunk` (engine.py lines 250-261). -/

/-- Observable calls made by `Checkpoint.next_chunk` into the catalogs and
the SourceLocked. -/
inductive NCEvent
  | listUnpackFiles
  | waitNewFile
  | addNewChunk
deriving DecidableEq, Repr

/-- The environment `Checkpoint.next_chunk` reads: the result of the first
`files_db.list_unpack_files()`, the result of
`source_locked.is_files_scan_finish()`, and the listing returned by the
retry after `wait_new_file`. -/
structure NextChunkEnv where
  listing : List Nat
  is_files_scan_finish : Bool
  listing_after_wait : List Nat
deriving DecidableEq, Repr

/-- `Checkpoint.next_chunk` (engine.py lines 250-261): lists the unpacked
files; when the list is empty it returns `none` if the source scan is
finished, and otherwise waits for a new file and lists again; in every
non-`none` case it allocates a new chunk via `chunk_db.add_new_chunk()`.
Returns the allocated chunk (abstracted as `0`) and the trace of calls.
The `capacities` argument is taken but never used by the code. -/
def next_chunk (env : NextChunkEnv) (capacities : List Nat) :
    Option Nat × List NCEvent :=
  if env.listing = [] then
    if env.is_files_scan_finish then
      (none, [NCEvent.listUnpackFiles])
    else
      (some 0,
       [NCEvent.listUnpackFiles, NCEvent.waitNewFile, NCEvent.listUnpackFiles,
        NCEvent.addNewChunk])
  else (some 0, [NCEvent.listUnpackFiles, NCEvent.addNewChunk])

/-- Claim C7: `next_chunk` returns `none` exactly when the unpacked-file
listing is empty and the source scan is finished; when the listing is empty
and the scan is not finished it waits for a new file and retries the
listing before allocating a new chunk. -/
theorem next_chunk_none_iff (env : NextChunkEnv) (capacities : List Nat) :
    ((next_chunk env capacities).1 = none ↔
      env.listing = [] ∧ env.is_files_scan_finish = true) ∧
    (env.listing = [] → env.is_files_scan_finish = false →
      (next_chunk env capacities).2 =
        [NCEvent.listUnpackFiles, NCEvent.waitNewFile, NCEvent.listUnpackFiles,
         NCEvent.addNewChunk] ∧
      (next_chunk env capacities).1 = some 0) := by
  by_cases hl : env.listing = [] <;> by_cases hf : env.is_files_scan_finish <;>
    simp [next_chunk, hl, hf]

/-- Witness for C7 at a concrete environment with an empty listing and an
unfinished scan. -/
theorem next_chunk_none_iff_witness :
    (next_chunk ⟨[], false, [7]⟩ []).2 =
      [NCEvent.listUnpackFiles, NCEvent.waitNewFile, NCEvent.listUnpackFiles,
       NCEvent.addNewChunk] ∧
    (next_chunk ⟨[], false, [7]⟩ []).1 = some 0 :=
  (next_chunk_none_iff ⟨[], false, [7]⟩ []).2 rfl rfl

/-! Chunk reads: `Chunk.read`, `Chunk.read_from_source` and
`Chunk.read_from_target` (engine.py lines 281-333). -/

/-- A file block served by a chunk, with the transforms applied to it:
a raw file, the diff of a file against its previous version, or a
compressed block. -/
inductive Block
  | raw (file : Nat)
  | diffOf (file : Nat)
  | compressed (b : Block)
deriving DecidableEq, Repr

/-- Which branch `Chunk.read` dispatches to (engine.py lines 281-285). -/
inductive ReadPath
  | fromSource
  | fromTarget
deriving DecidableEq, Repr

/-- The environment `Chunk.read_from_source` reads (engine.py
lines 287-329): the existing file block covering the requested offset
(`file_block_at`), the unpacked-file listings before and after
`wait_new_files`, the chunk-full test `capacity - real_len < FREE_LIMIT`,
the scan-finish flag, the checkpoint's delta flag, the chunk's compress
flag, whether the selected file is already a diff, and the diff memoized in
`files_db` for the selected file. -/
structure ReadSourceEnv where
  file_block_at : Option Block
  unpack_files : List Nat
  unpack_files_after_wait : List Nat
  is_full : Bool
  file_scan_finish : Bool
  is_last_one : Bool
  is_delta : Bool
  is_compress : Bool
  file_is_diff : Bool
  stored_diff : Option Nat
deriving DecidableEq, Repr

/-- Modelled from the spec: `select_file` is called at engine.py line 303
but defined nowhere under src/; the spec packs file blocks "in `files_db`
order", so it picks the first listed file. -/
def select_file (files : List Nat) : Nat := files.headI

/-- `Chunk.read_from_source` (engine.py lines 287-329): serve the file
block covering the offset; when none exists, pick the next unpacked file
(waiting for one if the scan is still running and the chunk is not full,
and returning `none` when there is nothing left or no room), replace it by
its diff when the checkpoint is delta and no diff is memoized, and finally
compress the block when the chunk is compressed. -/
def read_from_source (env : ReadSourceEnv) : Option Block :=
  match env.file_block_at with
  | some fb =>
      some (if env.is_compress then Block.compressed fb else fb)
  | none =>
      if env.unpack_files = [] ∧ (env.is_full ∨ env.file_scan_finish) then
        none
      else
        let files :=
          if env.unpack_files = [] then env.unpack_files_after_wait
          else env.unpack_files
        let file := select_file files
        let fb : Block :=
          if env.is_delta ∧ ¬ env.file_is_diff ∧ env.stored_diff = none then
            Block.diffOf file
          else Block.raw file
        some (if env.is_compress then Block.compressed fb else fb)

/-- `Chunk.read_from_target` (engine.py lines 332-333), a bare `pass` in
the source: it performs no file-block lookup and produces nothing. -/
def read_from_target (env : ReadSourceEnv) : Option Block := none

/-- `Chunk.read` (engine.py lines 281-285): dispatch on the owning
checkpoint's status — `read_from_source` when it is SUCCESS,
`read_from_target` otherwise. -/
def chunk_read (st : Status) (env : ReadSourceEnv) : ReadPath × Option Block :=
  if st = Status.success then (ReadPath.fromSource, read_from_source env)
  else (ReadPath.fromTarget, read_from_target env)

/-- Counterexample to claim C8: on a checkpoint that is not SUCCESS (here
STANDBY), `read` goes to the `read_from_target` stub and returns nothing —
it does not locate the covering file block nor apply the compression
transform — even though the lazily materializing path `read_from_source`
would serve the compressed block. -/
theorem chunk_read_not_lazy_before_success :
    chunk_read Status.standby
        ⟨some (Block.raw 5), [], [], false, false, false, false, true, false, none⟩ =
      (ReadPath.fromTarget, none) ∧
    read_from_source
        ⟨some (Block.raw 5), [], [], false, false, false, false, true, false, none⟩ =
      some (Block.compressed (Block.raw 5)) ∧
    (ReadPath.fromTarget, (none : Option Block)) ≠
      (ReadPath.fromSource, some (Block.compressed (Block.raw 5))) := by
  exact ⟨rfl, rfl, by decide⟩

/-- Claim C8 as amended: `Chunk.read` dispatches on the owning checkpoint's
status — when it is SUCCESS it reads through `read_from_source`, which
locates the file block covering the offset and applies the diff and
compression transforms; for every other status it calls `read_from_target`,
which is left unimplemented and yields nothing. -/
theorem chunk_read_dispatch (st : Status) (env : ReadSourceEnv) :
    (st = Status.success →
      chunk_read st env = (ReadPath.fromSource, read_from_source env)) ∧
    (st ≠ Status.success →
      chunk_read st env = (ReadPath.fromTarget, none)) ∧
    (∀ fb, env.file_block_at = some fb →
      read_from_source env =
        some (if env.is_compress then Block.compressed fb else fb)) := by
  refine ⟨fun h => by simp [chunk_read, h], fun h => by simp [chunk_read, h, read_from_target],
    fun fb hfb => ?_⟩
  unfold read_from_source
  rw [hfb]

/-- Witness for C8's amended theorem, applying it at SUCCESS and at STANDBY
over a concrete environment holding a block at the requested offset. -/
theorem chunk_read_dispatch_witness :
    chunk_read Status.success
        ⟨some (Block.raw 3), [], [], false, false, false, false, true, false, none⟩ =
      (ReadPath.fromSource, some (Block.compressed (Block.raw 3))) ∧
    chunk_read Status.standby
        ⟨some (Block.raw 3), [], [], false, false, false, false, true, false, none⟩ =
      (ReadPath.fromTarget, none) := by
  have h1 := chunk_read_dispatch Status.success
    ⟨some (Block.raw 3), [], [], false, false, false, false, true, false, none⟩
  have h2 := chunk_read_dispatch Status.standby
    ⟨some (Block.raw 3), [], [], false, false, false, false, true, false, none⟩
  refine ⟨?_, h2.2.1 (by decide)⟩
  rw [h1.1 rfl, h1.2.2 (Block.raw 3) rfl]
  rfl

/-! Source-state locking: `Task.lock_source` and `Task.unlock_source`
(engine.py lines 55-78). -/

/-- The pair stored in `Task.source_states` under a locked-state id
(engine.py line 68): the source's original state and its locked state.
State tokens are abstracted as naturals. -/
structure StatePair where
  original_state : Nat
  locked_state : Nat
deriving DecidableEq, Repr

/-- Observable RPCs issued during locking: `original_state`, `lock_state`
and `restore_state` of the SourceTask (engine.py lines 61, 67, 76; the
`unlock_state` call of line 76 resolves to the SourceTask's
`restore_state`, the only state-restoring method it has, engine.py
lines 141-142). -/
inductive LockEvent
  | originalStateCall (orig : Nat)
  | lockStateCall (orig : Nat)
  | restoreStateCall (orig : Nat)
deriving DecidableEq, Repr

/-- The locking-related fields of a `Task` (engine.py lines 49-51):
`source_states` keyed by locked-state id, `next_source_state_id` and the
current `locked_source_state_id`. -/
structure TaskLock where
  source_states : List (Nat × StatePair)
  next_source_state_id : Nat
  locked_source_state_id : Option Nat
deriving DecidableEq, Repr

/-- `Task.unlock_source` (engine.py lines 71-78): a no-op when no lock is
held; otherwise issue `restore_state` with the held lock's original state,
drop the entry and clear the current id.  When the held id has no entry the
code would raise a KeyError; that case is unreachable from the recorded
operations and is modelled as a no-op. -/
def unlock_source (t : TaskLock) : TaskLock × List LockEvent :=
  match t.locked_source_state_id with
  | none => (t, [])
  | some id =>
    match t.source_states.lookup id with
    | none => (t, [])
    | some p =>
        (⟨t.source_states.filter (fun q => q.1 ≠ id), t.next_source_state_id, none⟩,
         [LockEvent.restoreStateCall p.original_state])

/-- `Task.lock_source` (engine.py lines 55-68): when a lock is already held
it is released first via `unlock_source`; then the source's original state
is read, a fresh locked-state id is taken, the state is locked and the pair
is recorded under the new id.  The tokens the two RPCs return are supplied
as `orig` and `locked`. -/
def lock_source (t : TaskLock) (orig locked : Nat) : TaskLock × List LockEvent :=
  let step :=
    if t.locked_source_state_id.isSome then unlock_source t else (t, [])
  let t1 := step.1
  let id := t1.next_source_state_id
  let t2 : TaskLock :=
    ⟨t1.source_states ++ [(id, ⟨orig, locked⟩)], id + 1, some id⟩
  (t2, step.2 ++ [LockEvent.originalStateCall orig, LockEvent.lockStateCall orig])

/-- Claim C9: a Task holds at most one LockedState — calling `lock_source`
while a lock `(id0, p)` is held first issues `restore_state` with that
lock's original state, before the `original_state` and `lock_state` calls
of the new lock; the new lock gets the fresh id `next_source_state_id`
(distinct from the old one) and is the only recorded state afterwards. -/
theorem lock_source_releases_prior (t : TaskLock) (orig locked id0 : Nat)
    (p : StatePair)
    (hlock : t.locked_source_state_id = some id0)
    (hstates : t.source_states = [(id0, p)])
    (hfresh : id0 < t.next_source_state_id) :
    (lock_source t orig locked).2 =
      [LockEvent.restoreStateCall p.original_state,
       LockEvent.originalStateCall orig, LockEvent.lockStateCall orig] ∧
    (lock_source t orig locked).1.source_states =
      [(t.next_source_state_id, ⟨orig, locked⟩)] ∧
    (lock_source t orig locked).1.locked_source_state_id =
      some t.next_source_state_id ∧
    t.next_source_state_id ≠ id0 ∧
    (lock_source t orig locked).1.source_states.length ≤ 1 := by
  have hne : t.next_source_state_id ≠ id0 := Nat.ne_of_gt hfresh
  have hu : unlock_source t =
      (⟨[], t.next_source_state_id, none⟩,
        [LockEvent.restoreStateCall p.original_state]) := by
    unfold unlock_source
    rw [hlock, hstates]
    simp [List.lookup, List.filter]
  have hl : lock_source t orig locked =
      (⟨[(t.next_source_state_id, ⟨orig, locked⟩)], t.next_source_state_id + 1,
         some t.next_source_state_id⟩,
       [LockEvent.restoreStateCall p.original_state,
        LockEvent.originalStateCall orig, LockEvent.lockStateCall orig]) := by
    unfold lock_source
    rw [hlock]
    simp [hu]
  rw [hl]
  exact ⟨rfl, rfl, rfl, hne, by simp⟩

/-- Witness for C9 at a concrete task already holding lock id 1 with
original state 10, locking anew with original state 20. -/
theorem lock_source_releases_prior_witness :
    (lock_source ⟨[(1, ⟨10, 11⟩)], 2, some 1⟩ 20 21).2 =
      [LockEvent.restoreStateCall 10,
       LockEvent.originalStateCall 20, LockEvent.lockStateCall 20] ∧
    (lock_source ⟨[(1, ⟨10, 11⟩)], 2, some 1⟩ 20 21).1.source_states =
      [(2, ⟨20, 21⟩)] ∧
    (lock_source ⟨[(1, ⟨10, 11⟩)], 2, some 1⟩ 20 21).1.locked_source_state_id =
      some 2 ∧
    (2 : Nat) ≠ 1 ∧
    (lock_source ⟨[(1, ⟨10, 11⟩)], 2, some 1⟩ 20 21).1.source_states.length ≤ 1 :=
  lock_source_releases_prior ⟨[(1, ⟨10, 11⟩)], 2, some 1⟩ 20 21 1 ⟨10, 11⟩
    rfl rfl (by decide)

/-! Demo engine task management: `BackupEngine.resume_backup_task`
(doc/demo.py lines 90-110). -/

/-- `task_mgr.get_task_info` (demo.py line 91): the task manager as an
association list from task id to the task's state string. -/
def get_task_info (mgr : List (Nat × String)) (task_id : Nat) : Option String :=
  mgr.lookup task_id

/-- Set the state of one task in the manager (the mutation
`task_info.state = ...` of demo.py line 96). -/
def set_task_state (mgr : List (Nat × String)) (task_id : Nat) (st : String) :
    List (Nat × String) :=
  mgr.map (fun q => if q.1 = task_id then (q.1, st) else q)

/-- `BackupEngine.resume_backup_task` (demo.py lines 90-110): raise "Task
not found" for an unknown id; set the state to "running" and start the two
worker threads, returning `true`, when the state is "paused"; otherwise
return `false` without touching anything.  The result carries the updated
manager, the returned boolean and the number of worker threads started. -/
def resume_backup_task (mgr : List (Nat × String)) (task_id : Nat) :
    Except String (List (Nat × String) × Bool × Nat) :=
  match get_task_info mgr task_id with
  | none => Except.error "Task not found"
  | some st =>
    if st = "paused" then
      Except.ok (set_task_state mgr task_id "running", true, 2)
    else
      Except.ok (mgr, false, 0)

/-- Looking a key up after `set_task_state` on that key rewrites the stored
state and nothing else. -/
theorem lookup_set_task_state (mgr : List (Nat × String)) (task_id : Nat)
    (st old : String) (h : mgr.lookup task_id = some old) :
    (set_task_state mgr task_id st).lookup task_id = some st := by
  induction mgr with
  | nil => simp [List.lookup] at h
  | cons q rest ih =>
      obtain ⟨k, v⟩ := q
      simp only [set_task_state] at ih ⊢
      by_cases hq : k = task_id
      · subst hq
        rw [List.map_cons, if_pos rfl]
        rw [List.lookup_cons_self]
      · have hne : (task_id == k) = false := by
          simp [Ne.symm hq]
        simp only [List.lookup, hne] at h
        rw [List.map_cons, if_neg hq]
        simp only [List.lookup, hne]
        exact ih h

/-- Claim C10: `resume_backup_task` raises "Task not found" for an unknown
id; for an existing task it sets the state to "running", starts the two
workers and returns `true` exactly when the state is "paused", and
otherwise returns `false`, leaves the manager unchanged and starts no
worker. -/
theorem resume_backup_task_spec (mgr : List (Nat × String)) (task_id : Nat) :
    (get_task_info mgr task_id = none →
      resume_backup_task mgr task_id = Except.error "Task not found") ∧
    (get_task_info mgr task_id = some "paused" →
      resume_backup_task mgr task_id =
        Except.ok (set_task_state mgr task_id "running", true, 2) ∧
      get_task_info (set_task_state mgr task_id "running") task_id =
        some "running") ∧
    (∀ st, get_task_info mgr task_id = some st → st ≠ "paused" →
      resume_backup_task mgr task_id = Except.ok (mgr, false, 0)) := by
  refine ⟨fun h => ?_, fun h => ?_, fun st h hne => ?_⟩
  · simp [resume_backup_task, h]
  · exact ⟨by simp [resume_backup_task, h],
      lookup_set_task_state mgr task_id "running" "paused" h⟩
  · simp [resume_backup_task, h, hne]

/-- Witness for C10, applying its theorem to a two-task manager: task 1 is
paused and resumes to running, task 2 is already running and is refused,
and task 9 does not exist. -/
theorem resume_backup_task_spec_witness :
    resume_backup_task [(1, "paused"), (2, "running")] 1 =
      Except.ok ([(1, "running"), (2, "running")], true, 2) ∧
    get_task_info [(1, "running"), (2, "running")] 1 = some "running" ∧
    resume_backup_task [(1, "paused"), (2, "running")] 2 =
      Except.ok ([(1, "paused"), (2, "running")], false, 0) ∧
    resume_backup_task [(1, "paused"), (2, "running")] 9 =
      Except.error "Task not found" := by
  have h1 := (resume_backup_task_spec [(1, "paused"), (2, "running")] 1).2.1 rfl
  have h2 := (resume_backup_task_spec [(1, "paused"), (2, "running")] 2).2.2
    "running" rfl (by decide)
  have h3 := (resume_backup_task_spec [(1, "paused"), (2, "running")] 9).1 rfl
  exact ⟨h1.1, h1.2, h2, h3⟩

end BuckyBackup
